/-
Verification of the chatterbots orchestration core: a shallow embedding of
the character-state store (CharacterStateManager.js), the character session
service (CustomCharacterService.js), the message orchestrator
(GetStreamIntegration.js) and the metrics engine
(MetricsCalculationService.js), together with proofs of the documented
properties.

Modelling conventions:
* `Date.now()` is passed in explicitly as a `now : Nat` argument.
* The Firestore document store and the in-process cache are always written
  together by the JS code on the successful paths, so both are collapsed
  into one association list `states`.  Writes that can fail are modelled by
  explicit boolean success parameters.
* JS `null`/absent fields are `Option` values; JS string truthiness
  (`if (state.group)`) is modelled explicitly (absent or empty is falsy).
* Fallible operations return `Option` (`none` = a thrown exception); JS
  `try`/`catch` blocks that swallow the error are modelled by returning the
  unchanged state together with an explicit "error surfaced" flag.
-/
import Mathlib

namespace Chatterbots

/-! ## Character state (CharacterStateManager.js) -/

/-- Durable per-character state, the document stored in `character_states`.
Fields follow `initializeCharacter` / `updateGroup` in
CharacterStateManager.js. -/
structure CharacterState where
  group : Option String
  name : String
  traits : List String
  greetingCompleted : Bool
  identityEstablished : Bool
  lastInteraction : Nat
  interactionCount : Nat
  created : Nat
  lastGroupChange : Option Nat
  contextReset : Option Nat
  lastUpdated : Option Nat
  deriving Repr, DecidableEq

/-- Caller-supplied seed for `initializeCharacter` (the JS `initialState`
object); `none` means the field is absent from the seed object. -/
structure Seed where
  group : Option (Option String) := none
  name : Option String := none
  traits : Option (List String) := none
  greetingCompleted : Option Bool := none
  identityEstablished : Option Bool := none
  lastInteraction : Option Nat := none
  interactionCount : Option Nat := none
  created : Option Nat := none
  lastGroupChange : Option (Option Nat) := none
  contextReset : Option (Option Nat) := none
  lastUpdated : Option (Option Nat) := none
  deriving Repr, DecidableEq

/-- State of one CharacterStateManager: the (collapsed cache/Firestore)
`states` map and the ephemeral `conversationFlags` map, keyed by
(characterId, flag name).  Flags are only ever set to booleans. -/
structure Manager where
  states : List (String × CharacterState) := []
  flags : List ((String × String) × Bool) := []
  deriving Repr, DecidableEq

/-- Insert-or-replace in an association list (JS `Map.set`). -/
def assocSet {α β : Type} [DecidableEq α] (l : List (α × β)) (k : α) (v : β) :
    List (α × β) :=
  match l with
  | [] => [(k, v)]
  | (k', v') :: t => if k' = k then (k, v) :: t else (k', v') :: assocSet t k v

/-- `getCharacterState`: cache/Firestore lookup, `none` if never
initialized. -/
def getState (m : Manager) (cid : String) : Option CharacterState :=
  m.states.lookup cid

def putState (m : Manager) (cid : String) (st : CharacterState) : Manager :=
  { m with states := assocSet m.states cid st }

/-- `setConversationFlag`. -/
def setFlag (m : Manager) (cid flag : String) (v : Bool) : Manager :=
  { m with flags := assocSet m.flags (cid, flag) v }

/-- `getConversationFlag` (`none` = JS `undefined`). -/
def getFlag (m : Manager) (cid flag : String) : Option Bool :=
  m.flags.lookup (cid, flag)

/-- `clearConversationFlag` (Map.delete). -/
def clearFlag (m : Manager) (cid flag : String) : Manager :=
  { m with flags := m.flags.filter (fun e => ¬ e.1 = (cid, flag)) }

/-- The default state object built in `initializeCharacter`, before the
seed spread: `{ group: null, name: initialState.name || 'Character',
traits: initialState.traits || [], greetingCompleted: false,
identityEstablished: false, lastInteraction: Date.now(),
interactionCount: 0, created: Date.now() }`.  The `name || 'Character'`
and `traits || []` defaults are then overwritten again by the seed spread,
so the spread alone decides those fields when present. -/
def defaultState (now : Nat) : CharacterState :=
  { group := none
    name := "Character"
    traits := []
    greetingCompleted := false
    identityEstablished := false
    lastInteraction := now
    interactionCount := 0
    created := now
    lastGroupChange := none
    contextReset := none
    lastUpdated := none }

/-- Field-by-field override of a state by a seed: the JS object spread
`{ ...defaults, ...initialState }`. -/
def overrideState (st : CharacterState) (seed : Seed) : CharacterState :=
  { group := seed.group.getD st.group
    name := seed.name.getD st.name
    traits := seed.traits.getD st.traits
    greetingCompleted := seed.greetingCompleted.getD st.greetingCompleted
    identityEstablished := seed.identityEstablished.getD st.identityEstablished
    lastInteraction := seed.lastInteraction.getD st.lastInteraction
    interactionCount := seed.interactionCount.getD st.interactionCount
    created := seed.created.getD st.created
    lastGroupChange := seed.lastGroupChange.getD st.lastGroupChange
    contextReset := seed.contextReset.getD st.contextReset
    lastUpdated := seed.lastUpdated.getD st.lastUpdated }

/-- `initializeCharacter(characterId, initialState)`: returns the existing
state untouched if present, otherwise creates defaults overridden by the
seed, persists and caches. -/
def initializeCharacter (now : Nat) (m : Manager) (cid : String)
    (seed : Seed) : Manager × CharacterState :=
  match getState m cid with
  | some st => (m, st)
  | none =>
      let st := overrideState (defaultState now) seed
      (putState m cid st, st)

/-- `updateGroup(characterId, groupId)`: `none` models the thrown
"Character not found" error.  On a group change it stamps
`lastGroupChange`/`contextReset`, clears `identityEstablished` and arms
the ephemeral `resetRequired` flag; it always stamps `lastUpdated`. -/
def updateGroup (now : Nat) (m : Manager) (cid : String)
    (gid : Option String) : Option (Manager × CharacterState) :=
  match getState m cid with
  | none => none
  | some st =>
      let isGroupChange : Bool := st.group ≠ gid
      let st' : CharacterState :=
        { st with
          group := gid
          lastGroupChange := if isGroupChange then some now else st.lastGroupChange
          identityEstablished := if isGroupChange then false else st.identityEstablished
          contextReset := if isGroupChange then some now else st.contextReset
          lastUpdated := some now }
      let m' := putState m cid st'
      let m'' := if isGroupChange then setFlag m' cid "resetRequired" true else m'
      some (m'', st')

/-- `markGreetingCompleted(characterId)`. -/
def markGreetingCompleted (now : Nat) (m : Manager) (cid : String) :
    Option (Manager × CharacterState) :=
  match getState m cid with
  | none => none
  | some st =>
      let st' := { st with greetingCompleted := true, lastUpdated := some now }
      some (putState m cid st', st')

/-- `markIdentityEstablished(characterId)`. -/
def markIdentityEstablished (now : Nat) (m : Manager) (cid : String) :
    Option (Manager × CharacterState) :=
  match getState m cid with
  | none => none
  | some st =>
      let st' := { st with identityEstablished := true, lastUpdated := some now }
      some (putState m cid st', st')

/-- Side-effect steps attempted by `logInteraction`, in order. -/
inductive LogStep where
  | appendLog
  | updateCounters
  deriving Repr, DecidableEq

/-- `logInteraction(characterId, interaction)`: the whole body is wrapped
in `try { ... } catch (error) { console.error(...) }` with no rethrow, so
no error ever escapes to the caller.  `appendOk`/`updateOk` model the two
Firestore writes succeeding or throwing.  Returns the new manager, the
trace of write steps that were attempted, and whether an error was
surfaced to the caller. -/
def logInteraction (appendOk updateOk : Bool) (now : Nat) (m : Manager)
    (cid : String) : Manager × List LogStep × Bool :=
  match getState m cid with
  | none => (m, [], false)
  | some st =>
      let st' := { st with
        interactionCount := st.interactionCount + 1
        lastInteraction := now
        lastUpdated := some now }
      if appendOk then
        if updateOk then
          (putState m cid st', [LogStep.appendLog, LogStep.updateCounters], false)
        else
          (m, [LogStep.appendLog, LogStep.updateCounters], false)
      else
        (m, [LogStep.appendLog], false)

/-! Instruction clauses appended by `getEnhancedSystemInstructions`. -/

/-- JS template-literal rendering of `state.group` (null prints "null"). -/
def showGroup : Option String → String
  | some g => g
  | none => "null"

/-- JS truthiness of `state.group` (null and "" are falsy). -/
def groupTruthy : Option String → Bool
  | some g => g ≠ ""
  | none => false

def groupClause (g : String) : String :=
  "\n\nIMPORTANT: You are a member of the " ++ g ++
    ". This is a permanent part of your identity."

def identityClause : String :=
  "\n\nIMPORTANT: You have already introduced yourself to the user. Do not reintroduce yourself in each message. Continue the conversation naturally as if your identity is already established and known to the user."

def greetingClause : String :=
  "\n\nIMPORTANT: This is your first interaction with this user. Start with a warm greeting that introduces yourself and establishes your character."

def resetClause (g : String) : String :=
  "\n\nCRITICAL: You have just become a member of the " ++ g ++
    ". This is now a permanent part of your identity. Do not reference any previous group affiliations."

/-- `getEnhancedSystemInstructions(characterId, baseInstructions)`:
returns the base text unchanged when the state is absent; otherwise
appends, in order, the group clause, the identity clause, the greeting
clause and — when the ephemeral `resetRequired` flag is truthy — the reset
clause, clearing that flag as a side effect. -/
def getEnhancedSystemInstructions (m : Manager) (cid : String)
    (base : String) : Manager × String :=
  match getState m cid with
  | none => (m, base)
  | some st =>
      let t1 := base ++ (if groupTruthy st.group then groupClause (showGroup st.group) else "")
      let t2 := t1 ++ (if st.identityEstablished then identityClause else "")
      let t3 := t2 ++ (if st.greetingCompleted then "" else greetingClause)
      if getFlag m cid "resetRequired" = some true then
        (clearFlag m cid "resetRequired", t3 ++ resetClause (showGroup st.group))
      else
        (m, t3)

/-! ## Session service (CustomCharacterService.js) -/

/-- Calls made to the AI backend (GenAILiveClient). -/
inductive BackendCall where
  | connect (cid : String)
  | send (cid : String) (system : Bool)
  deriving Repr, DecidableEq

/-- State effect of `getCharacter(characterId)`: when no client is cached
for the character, a fresh client is configured with
`getEnhancedSystemInstructions`, which may consume the `resetRequired`
flag; no backend call is made (the client is constructed, not
connected). -/
def getCharacterEffect (clientCached : Bool) (m : Manager) (cid : String) :
    Manager :=
  if clientCached then m else (getEnhancedSystemInstructions m cid "").1

/-- `initializeCharacterSession(characterId, options)`:
`characterExists` models the `characters` document existing (`getCharacter`
throws otherwise and the catch returns `false`); `completes` models the
backend firing its `complete` event before the 10s safety timeout.
Returns the manager, the resolved success boolean and the trace of backend
calls.  When the state says the greeting is already completed and
`forceGreeting` is off, it resolves `true` with no backend call. -/
def initializeCharacterSession (characterExists clientCached completes
    forceGreeting : Bool) (now : Nat) (m : Manager) (cid : String) :
    Manager × Bool × List BackendCall :=
  if ¬characterExists then (m, false, [])
  else
    let m1 := getCharacterEffect clientCached m cid
    let skip : Bool :=
      match getState m1 cid with
      | some st => st.greetingCompleted && !forceGreeting
      | none => false
    if skip then (m1, true, [])
    else if completes then
      let m2 := match markGreetingCompleted now m1 cid with
        | some (m2, _) => m2
        | none => m1
      (m2, true, [BackendCall.connect cid, BackendCall.send cid true])
    else
      (m1, false, [BackendCall.connect cid, BackendCall.send cid true])

/-- State effect of one successfully completed
`sendMessageToCharacter(characterId, message)` turn: the interaction is
logged first; on the backend `complete` event the state is re-read and, if
`interactionCount <= 2 && !identityEstablished`, identity is marked
established. -/
def sendMessageTurn (clientCached appendOk updateOk : Bool) (now : Nat)
    (m : Manager) (cid : String) : Manager :=
  let m1 := getCharacterEffect clientCached m cid
  let m2 := (logInteraction appendOk updateOk now m1 cid).1
  match getState m2 cid with
  | some st =>
      if st.interactionCount ≤ 2 ∧ st.identityEstablished = false then
        match markIdentityEstablished now m2 cid with
        | some (m3, _) => m3
        | none => m2
      else m2
  | none => m2

/-! ## Metrics engine (MetricsCalculationService.js) -/

/-- The fixed category enumeration, in the declaration order of the
`categories` object literal (the `Object.keys` iteration order). -/
inductive Cat where
  | alpha | beta | gamma | delta | epsilon
  deriving Repr, DecidableEq

/-- Position of a category in the declaration order. -/
def Cat.idx : Cat → Nat
  | .alpha => 0
  | .beta => 1
  | .gamma => 2
  | .delta => 3
  | .epsilon => 4

def catKeys : List Cat := [.alpha, .beta, .gamma, .delta, .epsilon]

/-- The `metrics.categories` object.  JS numbers are modelled as exact
rationals (the scoring weights 0.5, 0.7, 0.8, 0.6, 0.9 are decimal). -/
structure Categories where
  alpha : ℚ
  beta : ℚ
  gamma : ℚ
  delta : ℚ
  epsilon : ℚ
  deriving Repr, DecidableEq

def Categories.score (c : Categories) : Cat → ℚ
  | .alpha => c.alpha
  | .beta => c.beta
  | .gamma => c.gamma
  | .delta => c.delta
  | .epsilon => c.epsilon

/-- A user activity; the constructor arguments are the caller-supplied
scalars read by the scoring switch in `calculateUserMetrics`.  Activity
types not in the switch contribute nothing. -/
inductive Activity where
  | conversation (depth reflection : ℚ)
  | challenge (persistence creativity : ℚ)
  | sharing (generosity : ℚ)
  | other
  deriving Repr, DecidableEq

/-- One case of the per-activity-type scoring switch. -/
def applyActivity (c : Categories) : Activity → Categories
  | .conversation depth reflection =>
      { c with beta := c.beta + depth * (1/2),
               delta := c.delta + reflection * (7/10) }
  | .challenge persistence creativity =>
      { c with alpha := c.alpha + persistence * (4/5),
               gamma := c.gamma + creativity * (3/5) }
  | .sharing generosity =>
      { c with epsilon := c.epsilon + generosity * (9/10) }
  | .other => c

/-- `Math.min(Math.max(v, 0), 10)`. -/
def clamp (x : ℚ) : ℚ := min (max x 0) 10

def clampCategories (c : Categories) : Categories :=
  { alpha := clamp c.alpha, beta := clamp c.beta, gamma := clamp c.gamma,
    delta := clamp c.delta, epsilon := clamp c.epsilon }

/-- `Object.keys(metrics.categories).reduce((max, category) => ... , keys[0])`:
left fold over the declaration order, starting from the first key, keeping
the incumbent unless a later category is strictly greater. -/
def primaryGroupOf (c : Categories) : Cat :=
  catKeys.foldl (fun mx k => if c.score k > c.score mx then k else mx) Cat.alpha

/-- A prior metrics snapshot as appended to `history`.  (In JS each entry
is the full previous metrics object; only its scalar content is modelled,
which no claim inspects further.) -/
structure Snapshot where
  timestamp : Nat
  categories : Categories
  primaryGroup : Cat
  deriving Repr, DecidableEq

/-- The document stored in `user_metrics`. -/
structure UserMetrics where
  timestamp : Nat
  userId : String
  categories : Categories
  primaryGroup : Cat
  history : List Snapshot
  deriving Repr, DecidableEq

/-- `calculateUserMetrics(userId, userActivities)`: starts every category
at 0 (the previous snapshot only seeds `history`), folds the scoring rules
over the activities, clamps every category to [0,10], and picks the
primary group as the first maximum in declaration order. -/
def calculateUserMetrics (userId : String) (activities : List Activity)
    (previous : Option UserMetrics) (now : Nat) : UserMetrics :=
  let scored := activities.foldl applyActivity ⟨0, 0, 0, 0, 0⟩
  let cats := clampCategories scored
  { timestamp := now
    userId := userId
    categories := cats
    primaryGroup := primaryGroupOf cats
    history := match previous with
      | some p => p.history ++ [⟨p.timestamp, p.categories, p.primaryGroup⟩]
      | none => [] }

/-! ## Message orchestrator (GetStreamIntegration.js) -/

/-- Result of `parseChannelId`; `none` models JS `null` (and a NaN
timestamp). -/
structure ParsedChannel where
  userId : Option String
  characterId : Option String
  timestamp : Option Int
  deriving Repr, DecidableEq

/-- `parseInt(s, 10)`: skip leading whitespace, optional sign, then the
longest digit prefix; no digits gives NaN, modelled as `none`. -/
def parseIntJs (s : String) : Option Int :=
  let cs := s.data.dropWhile fun ch =>
    ch = ' ' ∨ ch = '\t' ∨ ch = '\n' ∨ ch = '\r'
  let signed : Int × List Char :=
    match cs with
    | '-' :: t => (-1, t)
    | '+' :: t => (1, t)
    | t => (1, t)
  let digits := signed.2.takeWhile Char.isDigit
  if digits.isEmpty then none
  else some (signed.1 * Int.ofNat
    (digits.foldl (fun n ch => 10 * n + (ch.toNat - 48)) 0))

/-- `String.prototype.split(sep)` for a single separator character:
accumulator-based split over the character list (`"".split` gives `[""]`,
adjacent separators give empty fields, like in JS). -/
def splitCharAux (sep : Char) : List Char → List Char → List String
  | [], acc => [String.mk acc.reverse]
  | ch :: rest, acc =>
      if ch = sep then String.mk acc.reverse :: splitCharAux sep rest []
      else splitCharAux sep rest (ch :: acc)

/-- `channelId.split('_')`. -/
def splitUnderscore (s : String) : List String := splitCharAux '_' s.data []

/-- `parseChannelId(channelId)`: split on underscores; with at least three
parts the first is the user id, the second the character id and the third
is parsed as a base-10 integer; otherwise every field stays null. -/
def parseChannelId (channelId : String) : ParsedChannel :=
  let parts := splitUnderscore channelId
  if parts.length ≥ 3 then
    { userId := some (parts.getD 0 "")
      characterId := some (parts.getD 1 "")
      timestamp := parseIntJs (parts.getD 2 "") }
  else
    { userId := none, characterId := none, timestamp := none }

/-- An inbound transport message. -/
structure Message where
  id : String
  senderId : String
  text : String
  deriving Repr, DecidableEq

/-- A `message.new` event as consumed by `handleIncomingMessage`. -/
structure MsgEvent where
  message : Option Message
  channelId : String
  deriving Repr, DecidableEq

/-- A message sent back through the transport. -/
structure SentMsg where
  channelId : String
  authorId : String
  text : String
  id : String
  deriving Repr, DecidableEq

/-- An interaction record written by `storeInteraction`. -/
structure StoredInteraction where
  userId : Option String
  characterId : String
  userMessage : String
  characterResponse : String
  channelId : String
  deriving Repr, DecidableEq

/-- Observable orchestrator state: the processed-id set (a JS `Set`, i.e.
insertion-ordered and duplicate-free), the channel-to-character map, the
messages sent through the transport, the stored interactions and a counter
supplying transport-assigned ids for outbound messages. -/
structure OrchState where
  processedIds : List String := []
  channelToCharacter : List (String × String) := []
  sentMessages : List SentMsg := []
  interactions : List StoredInteraction := []
  nextMsgId : Nat := 0
  deriving Repr, DecidableEq

/-- External collaborators of the orchestrator: its own identity, the
character lookup (`getCharacter`, `none` = the lookup throws "not found")
and the character service reply (`sendMessageToCharacter`, `none` = the
turn failed or timed out with no partial text). -/
structure OrchEnv where
  orchestratorId : String
  characterName : String → Option String
  respond : String → String → Option String

/-- `processedMessageIds.add(id)` (a `Set`: re-adding is a no-op). -/
def markProcessed (s : OrchState) (id : String) : OrchState :=
  { s with processedIds :=
      if id ∈ s.processedIds then s.processedIds
      else s.processedIds ++ [id] }

/-- The memory-cap cleanup in `handleIncomingMessage`: keep only the 1000
most recent ids. -/
def trimProcessed (s : OrchState) : OrchState :=
  if s.processedIds.length > 1000 then
    { s with processedIds :=
        s.processedIds.drop (s.processedIds.length - 1000) }
  else s

def freshMsgId (s : OrchState) : String := "srv-" ++ toString s.nextMsgId

/-- `sendMessageAsCharacter(channelId, characterId, message)`: throws
(`none`) if the character is not found; otherwise sends the text authored
by the character and immediately marks the transport-assigned reply id as
processed. -/
def sendMessageAsCharacter (env : OrchEnv) (s : OrchState)
    (channelId cid text : String) : Option OrchState :=
  match env.characterName cid with
  | none => none
  | some _ =>
      let mid := freshMsgId s
      let s1 := { s with
        sentMessages := s.sentMessages ++
          [{ channelId := channelId, authorId := cid, text := text, id := mid }]
        nextMsgId := s.nextMsgId + 1 }
      some (markProcessed s1 mid)

/-- `sendErrorMessage(channelId, characterId)`: best-effort fallback,
authored by the orchestrator itself, also marked processed.  The name
lookup failure is caught and defaults to "Character". -/
def sendErrorMessage (env : OrchEnv) (s : OrchState)
    (channelId cid : String) : OrchState :=
  let nm := (env.characterName cid).getD "Character"
  let txt := "I\x27m sorry, " ++ nm ++
    " is experiencing some technical difficulties. Please try again in a moment."
  let mid := freshMsgId s
  let s1 := { s with
    sentMessages := s.sentMessages ++
      [{ channelId := channelId, authorId := env.orchestratorId, text := txt,
         id := mid }]
    nextMsgId := s.nextMsgId + 1 }
  markProcessed s1 mid

/-- The JS `String.prototype.trim` whitespace class: WhiteSpace (tab, VT,
FF, space, NBSP, BOM, Unicode Zs) plus LineTerminator (LF, CR, LS, PS). -/
def isJsWhitespace (ch : Char) : Bool :=
  ch = ' ' ∨ ch = '\t' ∨ ch = '\n' ∨ ch = '\r' ∨
  ch.toNat = 0x0B ∨ ch.toNat = 0x0C ∨ ch.toNat = 0xA0 ∨
  ch.toNat = 0xFEFF ∨ ch.toNat = 0x1680 ∨
  (0x2000 ≤ ch.toNat ∧ ch.toNat ≤ 0x200A) ∨
  ch.toNat = 0x2028 ∨ ch.toNat = 0x2029 ∨ ch.toNat = 0x202F ∨
  ch.toNat = 0x205F ∨ ch.toNat = 0x3000

/-- `messageText.trim() === ''` (also covers the `!messageText` falsy
check): every character is JS whitespace. -/
def isBlank (s : String) : Bool := s.data.all isJsWhitespace

/-- `processCharacterMessage(message, userId, channelId, characterId)`:
empty text is skipped; any failure inside the try block (character lookup
throw, AI turn failure) falls to the catch, which sends the fallback error
message.  The fire-and-forget metrics update and the external callback are
outside the modelled state. -/
def processCharacterMessage (env : OrchEnv) (s : OrchState) (msg : Message)
    (userId : Option String) (channelId cid : String) : OrchState :=
  if isBlank msg.text then s
  else
    match env.characterName cid with
    | none => sendErrorMessage env s channelId cid
    | some _ =>
        match env.respond cid msg.text with
        | none => sendErrorMessage env s channelId cid
        | some reply =>
            match sendMessageAsCharacter env s channelId cid reply with
            | none => sendErrorMessage env s channelId cid
            | some s1 =>
                { s1 with interactions := s1.interactions ++
                    [{ userId := userId, characterId := cid,
                       userMessage := msg.text, characterResponse := reply,
                       channelId := channelId }] }

/-- Recording of the channel-to-character mapping in
`handleIncomingMessage` (`if (!map.has(channelId)) map.set(...)`). -/
def recordMapping (s : OrchState) (channelId cid : String) : OrchState :=
  if (s.channelToCharacter.lookup channelId).isSome then s
  else
    let newMap := assocSet s.channelToCharacter channelId cid
    { s with channelToCharacter := newMap }

/-- Body of `handleIncomingMessage` once a message is present.  The
`if (!characterId) return` guard is a JS falsy check, so both an absent
character id (fewer than three fields) and an *empty* one (e.g. a channel
id "u1__5") make the handler stop after marking the message processed. -/
def handleMessageBody (env : OrchEnv) (s : OrchState) (msg : Message)
    (channelId : String) : OrchState :=
  if msg.id ∈ s.processedIds then s
  else if msg.senderId = env.orchestratorId then s
  else
    let s1 := trimProcessed (markProcessed s msg.id)
    let p := parseChannelId channelId
    match p.characterId with
    | none => s1
    | some cid =>
        if cid = "" then s1
        else
          processCharacterMessage env (recordMapping s1 channelId cid) msg
            p.userId channelId cid

/-- `handleIncomingMessage(event)`: skip when there is no message, when the
id was already processed, or when the sender is the orchestrator itself;
otherwise mark the id processed (and trim the set) before any other work,
parse the channel id, ignore non-character channels, record the
channel-to-character mapping and process the message. -/
def handleIncomingMessage (env : OrchEnv) (s : OrchState) (e : MsgEvent) :
    OrchState :=
  match e.message with
  | none => s
  | some msg => handleMessageBody env s msg e.channelId

/-! ## Operation alphabet over the state store / session service (for the
reachability invariant) -/

/-- One invocation of a state-store or session-service operation; the
`Nat`/`Bool` arguments are the clock value and the environment outcomes of
that invocation.  `init` uses the default (empty) seed. -/
inductive Op where
  | init (cid : String) (now : Nat)
  | setGroup (cid : String) (gid : Option String) (now : Nat)
  | markGreeting (cid : String) (now : Nat)
  | markIdentity (cid : String) (now : Nat)
  | logI (cid : String) (appendOk updateOk : Bool) (now : Nat)
  | msgTurn (cid : String) (clientCached appendOk updateOk : Bool) (now : Nat)
  | greetSession (cid : String)
      (characterExists clientCached completes forceGreeting : Bool) (now : Nat)
  | enhance (cid : String) (base : String)

/-- Apply one operation to the store, discarding outputs; a thrown
"not found" error leaves the store unchanged. -/
def applyOp (m : Manager) : Op → Manager
  | .init cid now => (initializeCharacter now m cid {}).1
  | .setGroup cid gid now =>
      match updateGroup now m cid gid with
      | some (m', _) => m'
      | none => m
  | .markGreeting cid now =>
      match markGreetingCompleted now m cid with
      | some (m', _) => m'
      | none => m
  | .markIdentity cid now =>
      match markIdentityEstablished now m cid with
      | some (m', _) => m'
      | none => m
  | .logI cid aOk uOk now => (logInteraction aOk uOk now m cid).1
  | .msgTurn cid cc aOk uOk now => sendMessageTurn cc aOk uOk now m cid
  | .greetSession cid ce cc comp force now =>
      (initializeCharacterSession ce cc comp force now m cid).1
  | .enhance cid base => (getEnhancedSystemInstructions m cid base).1

/-- Run a sequence of operations from the empty store. -/
def runOps (ops : List Op) : Manager := ops.foldl applyOp {}

/-- The greeting guard: the character either has no state yet or its
greeting is already completed... in fact, for identity-marking steps the
stronger condition that a completed greeting is on record. -/
def identityGuardOk (m : Manager) (cid : String) : Prop :=
  ∀ st, getState m cid = some st → st.greetingCompleted = true

/-- Discipline under which the greeting-before-identity invariant is
provable: identity-marking steps (direct `markIdentityEstablished` and
message-turn completions) run only for characters whose greeting is
already completed on record. -/
def opGuard (m : Manager) : Op → Prop
  | .markIdentity cid _ => identityGuardOk m cid
  | .msgTurn cid _ _ _ _ => identityGuardOk m cid
  | _ => True

/-- Stores reachable from the empty store by guarded operation
sequences. -/
inductive ReachG : Manager → Prop
  | nil : ReachG {}
  | step {m : Manager} (op : Op) : ReachG m → opGuard m op → ReachG (applyOp m op)

/-- The claimed store invariant: identity established only after a
completed greeting. -/
def storeInv (m : Manager) : Prop :=
  ∀ cid st, getState m cid = some st →
    st.identityEstablished = true → st.greetingCompleted = true

/-! ## Concrete fixtures used by counterexamples and witnesses -/

/-- Fresh default state for character "c1" at time 100 (scenario step 0). -/
def scenarioM0 : Manager := (initializeCharacter 100 {} "c1" {}).1

/-- After the channel-creation greeting
(`initializeCharacterSession(..., {forceGreeting: true})` completing). -/
def scenarioM1 : Manager :=
  (initializeCharacterSession true true true true 101 scenarioM0 "c1").1

/-- After the first user message turn completes. -/
def scenarioM2 : Manager := sendMessageTurn true true true 102 scenarioM1 "c1"

/-- After the second user message turn completes. -/
def scenarioM3 : Manager := sendMessageTurn true true true 103 scenarioM2 "c1"

/-- A store holding one greeted, established state for "c2". -/
def fixtureGreeted : Manager :=
  { states := [("c2",
      { group := some "group-alpha"
        name := "Azure"
        traits := []
        greetingCompleted := true
        identityEstablished := true
        lastInteraction := 50
        interactionCount := 3
        created := 10
        lastGroupChange := none
        contextReset := none
        lastUpdated := some 50 })]
    flags := [] }

/-- Orchestrator environment fixture: character "c1" exists and the
service replies "hi". -/
def envFixture : OrchEnv :=
  { orchestratorId := "chaos_theory"
    characterName := fun cid => if cid = "c1" then some "Verdant" else none
    respond := fun _ _ => some "hi" }

/-- A fresh inbound event from user "u1" on a character channel. -/
def eventFixture : MsgEvent :=
  { message := some { id := "m1", senderId := "u1", text := "Hello" }
    channelId := "u1_c1_1700000000000" }

/-- A fresh inbound event on a four-part channel id. -/
def eventFourParts : MsgEvent :=
  { message := some { id := "m2", senderId := "u1", text := "Hello" }
    channelId := "u1_c1_5_x" }

/-- A fresh inbound event on a non-character channel. -/
def eventNonCharacter : MsgEvent :=
  { message := some { id := "m3", senderId := "u1", text := "Hello" }
    channelId := "randomchannel" }

/-- A seed overriding two of the invariant defaults. -/
def seedOverriding : Seed :=
  { greetingCompleted := some true, interactionCount := some 5 }

/-! ## Helper lemmas -/

theorem lookup_cons_pair {α β : Type} [BEq α] [LawfulBEq α] [DecidableEq α]
    (k a : α) (b : β) (l : List (α × β)) :
    List.lookup k ((a, b) :: l) =
      if k = a then some b else List.lookup k l := by
  by_cases h : k = a
  · subst h; simp [List.lookup]
  · rw [List.lookup, beq_false_of_ne h, if_neg h]

theorem lookup_assocSet {α β : Type} [BEq α] [LawfulBEq α] [DecidableEq α]
    (l : List (α × β)) (k k' : α) (v : β) :
    (assocSet l k v).lookup k' = if k' = k then some v else l.lookup k' := by
  induction l with
  | nil =>
    simp only [assocSet]
    rw [lookup_cons_pair]
  | cons hd tl ih =>
    obtain ⟨a, b⟩ := hd
    simp only [assocSet]
    by_cases h : a = k
    · subst h
      rw [if_pos rfl, lookup_cons_pair, lookup_cons_pair]
      by_cases h2 : k' = a <;> simp [h2]
    · rw [if_neg h, lookup_cons_pair, lookup_cons_pair, ih]
      by_cases h2 : k' = a
      · by_cases h3 : k' = k
        · exact absurd (h2.symm.trans h3) h
        · simp [h2, h3, h]
      · simp [h2]

theorem lookup_filter_self {α β : Type} [BEq α] [LawfulBEq α] [DecidableEq α]
    (l : List (α × β)) (k : α) :
    (l.filter fun e => ¬ e.1 = k).lookup k = none := by
  induction l with
  | nil => simp
  | cons hd tl ih =>
    obtain ⟨a, b⟩ := hd
    rw [List.filter_cons]
    by_cases h : a = k
    · rw [if_neg (by simp [h])]
      exact ih
    · rw [if_pos (by simp [h]), lookup_cons_pair,
        if_neg (fun hh => h hh.symm)]
      exact ih

theorem getState_putState (m : Manager) (cid : String) (st : CharacterState)
    (cid' : String) :
    getState (putState m cid st) cid' =
      if cid' = cid then some st else getState m cid' := by
  simp [getState, putState, lookup_assocSet]

theorem getState_setFlag (m : Manager) (cid flag : String) (v : Bool)
    (cid' : String) : getState (setFlag m cid flag v) cid' = getState m cid' :=
  rfl

theorem getState_clearFlag (m : Manager) (cid flag : String)
    (cid' : String) : getState (clearFlag m cid flag) cid' = getState m cid' :=
  rfl

theorem getFlag_setFlag_self (m : Manager) (cid flag : String) (v : Bool) :
    getFlag (setFlag m cid flag v) cid flag = some v := by
  show (assocSet m.flags (cid, flag) v).lookup (cid, flag) = some v
  rw [lookup_assocSet, if_pos rfl]

theorem getFlag_clearFlag_self (m : Manager) (cid flag : String) :
    getFlag (clearFlag m cid flag) cid flag = none :=
  lookup_filter_self m.flags (cid, flag)

theorem getState_enhance (m : Manager) (cid base : String) (cid' : String) :
    getState ((getEnhancedSystemInstructions m cid base).1) cid' =
      getState m cid' := by
  unfold getEnhancedSystemInstructions
  cases h : getState m cid <;> simp [h]
  split <;> simp [getState_clearFlag]

theorem getState_getCharacterEffect (cc : Bool) (m : Manager)
    (cid cid' : String) :
    getState (getCharacterEffect cc m cid) cid' = getState m cid' := by
  unfold getCharacterEffect
  split <;> simp [getState_enhance]

theorem handleIncomingMessage_some (env : OrchEnv) (s : OrchState)
    (e : MsgEvent) (msg : Message) (he : e.message = some msg) :
    handleIncomingMessage env s e = handleMessageBody env s msg e.channelId := by
  unfold handleIncomingMessage
  rw [he]

theorem handleIncomingMessage_none (env : OrchEnv) (s : OrchState)
    (e : MsgEvent) (he : e.message = none) :
    handleIncomingMessage env s e = s := by
  unfold handleIncomingMessage
  rw [he]

/-! ## Claim C7: metrics clamping -/

/-- C7: for every user id and every list of activities with arbitrary
input magnitudes, every category value in the snapshot returned by
`calculateUserMetrics` lies in the closed interval [0,10]. -/
theorem metrics_categories_clamped (uid : String) (acts : List Activity)
    (prev : Option UserMetrics) (now : Nat) (c : Cat) :
    0 ≤ (calculateUserMetrics uid acts prev now).categories.score c ∧
      (calculateUserMetrics uid acts prev now).categories.score c ≤ 10 := by
  cases c <;>
    simp only [calculateUserMetrics, clampCategories, clamp,
      Categories.score] <;>
    exact ⟨le_min (le_max_right _ _) (by norm_num), min_le_right _ _⟩

/-! ## Claim C9: logInteraction error handling -/

/-- C9 counterexample: the whole body of `logInteraction` is wrapped in a
catch that never rethrows, so (a) with the state present, a failing
log-append surfaces no error and the counter update is *not* attempted
(the trace stops at the append), and (b) with the state absent the
operation also surfaces no error — contradicting the claim that append
failures are reported to the caller with the counter update still
attempted, and that the operation fails on absent state. -/
theorem logInteraction_claim_counterexample :
    logInteraction false true 5 fixtureGreeted "c2" =
      (fixtureGreeted, [LogStep.appendLog], false) ∧
    logInteraction true true 5 {} "c9" = ({}, [], false) := by
  constructor <;> rfl

/-- C9 amended: `logInteraction` never surfaces an error to its caller.
An absent state leaves the store untouched with nothing attempted; a
failing log-append stops before the counter update (which is therefore
skipped, not attempted) and leaves the store untouched; on a successful
append the counter update is attempted and, when it succeeds, increments
`interactionCount` and stamps `lastInteraction`/`lastUpdated`. -/
theorem logInteraction_never_surfaces (aOk uOk : Bool) (now : Nat)
    (m : Manager) (cid : String) :
    (logInteraction aOk uOk now m cid).2.2 = false ∧
    (getState m cid = none → logInteraction aOk uOk now m cid = (m, [], false)) ∧
    (∀ st, getState m cid = some st → aOk = false →
      logInteraction aOk uOk now m cid = (m, [LogStep.appendLog], false)) ∧
    (∀ st, getState m cid = some st → aOk = true →
      (logInteraction aOk uOk now m cid).2.1 =
        [LogStep.appendLog, LogStep.updateCounters] ∧
      (uOk = true →
        getState (logInteraction aOk uOk now m cid).1 cid =
          some { st with
            interactionCount := st.interactionCount + 1
            lastInteraction := now
            lastUpdated := some now })) := by
  refine ⟨?_, ?_, ?_, ?_⟩
  · unfold logInteraction
    cases h : getState m cid <;> simp
    split
    · split <;> simp
    · simp
  · intro h
    unfold logInteraction
    rw [h]
  · intro st h ha
    subst ha
    unfold logInteraction
    rw [h]
    simp
  · intro st h ha
    subst ha
    unfold logInteraction
    rw [h]
    cases uOk <;> simp [getState_putState]

/-- Witness for C9 amended, at the concrete failing-append input. -/
theorem logInteraction_never_surfaces_witness :
    logInteraction false true 5 fixtureGreeted "c2" =
      (fixtureGreeted, [LogStep.appendLog], false) :=
  (logInteraction_never_surfaces false true 5 fixtureGreeted "c2").2.2.1
    _ rfl rfl

/-! ## Claim C10: seed precedence at initialization -/

/-- C10: when `initializeCharacter` creates a new state, the created state
is the documented defaults overridden field-by-field by the caller's seed
(the seed wins on every field it carries, including `greetingCompleted`
and `interactionCount`). -/
theorem initializeCharacter_seed_precedence (now : Nat) (m : Manager)
    (cid : String) (seed : Seed) (h : getState m cid = none) :
    (initializeCharacter now m cid seed).2 =
      overrideState (defaultState now) seed ∧
    getState (initializeCharacter now m cid seed).1 cid =
      some (overrideState (defaultState now) seed) ∧
    (initializeCharacter now m cid seed).2.group = seed.group.getD none ∧
    (initializeCharacter now m cid seed).2.greetingCompleted =
      seed.greetingCompleted.getD false ∧
    (initializeCharacter now m cid seed).2.identityEstablished =
      seed.identityEstablished.getD false ∧
    (initializeCharacter now m cid seed).2.interactionCount =
      seed.interactionCount.getD 0 ∧
    (initializeCharacter now m cid seed).2.lastInteraction =
      seed.lastInteraction.getD now ∧
    (initializeCharacter now m cid seed).2.created =
      seed.created.getD now := by
  unfold initializeCharacter
  rw [h]
  simp [getState_putState, overrideState, defaultState]

/-- Witness for C10: a seed carrying `greetingCompleted=true` and
`interactionCount=5` produces a fresh state with exactly those values. -/
theorem initializeCharacter_seed_precedence_witness :
    (initializeCharacter 7 {} "c1" seedOverriding).2.greetingCompleted = true ∧
    (initializeCharacter 7 {} "c1" seedOverriding).2.interactionCount = 5 :=
  ⟨(initializeCharacter_seed_precedence 7 {} "c1" seedOverriding rfl).2.2.2.1,
   (initializeCharacter_seed_precedence 7 {} "c1" seedOverriding
      rfl).2.2.2.2.2.1⟩

/-! ## Claim C8: primary group is the first maximum -/

theorem primaryGroupOf_is_first_max (c : Categories) :
    (∀ k, c.score k ≤ c.score (primaryGroupOf c)) ∧
    (∀ k, c.score k = c.score (primaryGroupOf c) →
      (primaryGroupOf c).idx ≤ k.idx) := by
  unfold primaryGroupOf catKeys
  simp only [List.foldl]
  split_ifs <;>
    constructor <;>
    intro k <;>
    cases k <;>
    simp_all [Categories.score, Cat.idx] <;>
    linarith

/-- C8: the `primaryGroup` computed by `calculateUserMetrics` is always a
category of maximal score, with ties broken in favor of the first-declared
category in the enumeration order alpha, beta, gamma, delta, epsilon; in
particular, for categories {alpha:3, beta:7, gamma:7} (delta, epsilon at
the 0 baseline) the result is beta. -/
theorem metrics_primary_group_first_max :
    (∀ uid acts prev now,
      (∀ k, (calculateUserMetrics uid acts prev now).categories.score k ≤
        (calculateUserMetrics uid acts prev now).categories.score
          (calculateUserMetrics uid acts prev now).primaryGroup) ∧
      (∀ k, (calculateUserMetrics uid acts prev now).categories.score k =
        (calculateUserMetrics uid acts prev now).categories.score
          (calculateUserMetrics uid acts prev now).primaryGroup →
        (calculateUserMetrics uid acts prev now).primaryGroup.idx ≤ k.idx)) ∧
    primaryGroupOf ⟨3, 7, 7, 0, 0⟩ = Cat.beta := by
  constructor
  · intro uid acts prev now
    exact primaryGroupOf_is_first_max
      (calculateUserMetrics uid acts prev now).categories
  · rfl

/-- Witness for C8: on the empty-activity snapshot all scores tie at 0 and
the tie resolves to the first-declared category. -/
theorem metrics_primary_group_first_max_witness :
    ((calculateUserMetrics "u" [] none 0).primaryGroup).idx ≤ Cat.idx Cat.beta :=
  (metrics_primary_group_first_max.1 "u" [] none 0).2 Cat.beta rfl

/-! ## Claim C5: channel identifier parsing -/

theorem markProcessed_sent (s : OrchState) (id : String) :
    (markProcessed s id).sentMessages = s.sentMessages := rfl

theorem markProcessed_map (s : OrchState) (id : String) :
    (markProcessed s id).channelToCharacter = s.channelToCharacter := rfl

theorem trimProcessed_sent (s : OrchState) :
    (trimProcessed s).sentMessages = s.sentMessages := by
  unfold trimProcessed; split <;> rfl

theorem trimProcessed_map (s : OrchState) :
    (trimProcessed s).channelToCharacter = s.channelToCharacter := by
  unfold trimProcessed; split <;> rfl

/-- C5 counterexample: the code accepts any identifier with *at least*
three underscore-delimited fields (`parts.length >= 3`), so a four-field
identifier — which fails the claimed exactly-three shape — is parsed as a
character channel and processed (a reply is sent), not ignored. -/
theorem parseChannelId_claim_counterexample :
    parseChannelId "u1_c1_5_x" =
      { userId := some "u1", characterId := some "c1", timestamp := some 5 } ∧
    ¬ parseChannelId "u1_c1_5_x" =
      { userId := none, characterId := none, timestamp := none } ∧
    (handleIncomingMessage envFixture {} eventFourParts).sentMessages.length
      = 1 := by
  refine ⟨by rfl, by decide, by rfl⟩

/-- C5 amended: a character channel has *at least* three
underscore-delimited fields (first user id, second character id, third
parsed as a base-10 integer timestamp; any further fields are ignored);
identifiers with fewer than three fields parse to an all-absent result and
are ignored by the orchestrator (no reply is sent and no
channel-to-character mapping is recorded).  The two documented examples
behave as stated. -/
theorem parseChannelId_amended (s : String) :
    (3 ≤ (splitUnderscore s).length →
      parseChannelId s =
        { userId := some ((splitUnderscore s).getD 0 "")
          characterId := some ((splitUnderscore s).getD 1 "")
          timestamp := parseIntJs ((splitUnderscore s).getD 2 "") }) ∧
    ((splitUnderscore s).length < 3 →
      parseChannelId s =
        { userId := none, characterId := none, timestamp := none }) ∧
    parseChannelId "u1_c1_1700000000000" =
      { userId := some "u1", characterId := some "c1",
        timestamp := some 1700000000000 } ∧
    parseChannelId "randomchannel" =
      { userId := none, characterId := none, timestamp := none } ∧
    (∀ env st e, (parseChannelId e.channelId).characterId = none →
      (handleIncomingMessage env st e).sentMessages = st.sentMessages ∧
      (handleIncomingMessage env st e).channelToCharacter =
        st.channelToCharacter) := by
  refine ⟨?_, ?_, by rfl, by rfl, ?_⟩
  · intro h
    unfold parseChannelId
    rw [if_pos h]
  · intro h
    unfold parseChannelId
    rw [if_neg (by omega)]
  · intro env st e hp
    cases hm : e.message with
    | none => rw [handleIncomingMessage_none env st e hm]; exact ⟨rfl, rfl⟩
    | some msg =>
      rw [handleIncomingMessage_some env st e msg hm]
      unfold handleMessageBody
      by_cases h1 : msg.id ∈ st.processedIds
      · rw [if_pos h1]; exact ⟨rfl, rfl⟩
      by_cases h2 : msg.senderId = env.orchestratorId
      · rw [if_neg h1, if_pos h2]; exact ⟨rfl, rfl⟩
      · rw [if_neg h1, if_neg h2]
        simp only [hp]
        exact ⟨by rw [trimProcessed_sent, markProcessed_sent],
          by rw [trimProcessed_map, markProcessed_map]⟩

/-- Witness for C5 amended, at the two documented example identifiers and
a concrete ignored event. -/
theorem parseChannelId_amended_witness :
    parseChannelId "u1_c1_1700000000000" =
      { userId := some "u1", characterId := some "c1",
        timestamp := some 1700000000000 } ∧
    (handleIncomingMessage envFixture {} eventNonCharacter).sentMessages
      = ([] : List SentMsg) :=
  ⟨(parseChannelId_amended "u1_c1_1700000000000").1 (by decide),
   ((parseChannelId_amended "randomchannel").2.2.2.2 envFixture {}
      eventNonCharacter (by rfl)).1⟩

/-! ## Claim C3: identity establishment across the first two turns -/

/-- C3 counterexample: in the documented scenario (fresh character,
greeting completed at channel creation, then the first user message), the
identity check `interactionCount <= 2 && !identityEstablished` already
passes when the *first* turn completes (count is 1), so
`identityEstablished` is true after the first message — not still false as
claimed. -/
theorem first_turn_claim_counterexample :
    ((getState scenarioM2 "c1").map fun st =>
      (st.interactionCount, st.identityEstablished)) = some (1, true) ∧
    ¬ ((getState scenarioM2 "c1").map fun st => st.identityEstablished) =
      some false := by
  constructor <;> decide

/-- C3 amended: in the scenario, after the greeting the state has
`interactionCount=0` and `identityEstablished=false`; the first completed
user turn yields `interactionCount=1` with `identityEstablished` already
true (the `<= 2` window is hit at the first completion); the second turn
yields `interactionCount=2` with identity remaining established. -/
theorem first_turn_establishes_identity :
    ((getState scenarioM1 "c1").map fun st =>
      (st.interactionCount, st.identityEstablished, st.greetingCompleted)) =
      some (0, false, true) ∧
    ((getState scenarioM2 "c1").map fun st =>
      (st.interactionCount, st.identityEstablished)) = some (1, true) ∧
    ((getState scenarioM3 "c1").map fun st =>
      (st.interactionCount, st.identityEstablished)) = some (2, true) := by
  refine ⟨by decide, by decide, by decide⟩

/-! ## Claim C6: greeting idempotence -/

/-- C6: with the character present and its state recording
`greetingCompleted=true`, `initializeCharacterSession` with default
options resolves success with zero backend calls, and so does an
immediately repeated call on the resulting store. -/
theorem greeting_skip_idempotent (cached1 cached2 completes1 completes2 : Bool)
    (now1 now2 : Nat) (m : Manager) (cid : String) (st : CharacterState)
    (h1 : getState m cid = some st) (h2 : st.greetingCompleted = true) :
    (initializeCharacterSession true cached1 completes1 false now1 m cid).2.1
      = true ∧
    (initializeCharacterSession true cached1 completes1 false now1 m cid).2.2
      = [] ∧
    (initializeCharacterSession true cached2 completes2 false now2
      (initializeCharacterSession true cached1 completes1 false now1 m cid).1
      cid).2.1 = true ∧
    (initializeCharacterSession true cached2 completes2 false now2
      (initializeCharacterSession true cached1 completes1 false now1 m cid).1
      cid).2.2 = [] := by
  have hs1 : getState (getCharacterEffect cached1 m cid) cid = some st := by
    rw [getState_getCharacterEffect]; exact h1
  have hr1 : initializeCharacterSession true cached1 completes1 false now1 m
      cid = (getCharacterEffect cached1 m cid, true, []) := by
    unfold initializeCharacterSession
    rw [if_neg (by simp)]
    simp only [hs1, h2]
    simp
  have hs2 : getState (getCharacterEffect cached2
      (getCharacterEffect cached1 m cid) cid) cid = some st := by
    rw [getState_getCharacterEffect, getState_getCharacterEffect]; exact h1
  have hr2 : initializeCharacterSession true cached2 completes2 false now2
      (getCharacterEffect cached1 m cid) cid =
      (getCharacterEffect cached2 (getCharacterEffect cached1 m cid) cid,
        true, []) := by
    unfold initializeCharacterSession
    rw [if_neg (by simp)]
    simp only [hs2, h2]
    simp
  rw [hr1]
  refine ⟨rfl, rfl, ?_, ?_⟩ <;> rw [hr2]

/-- Witness for C6 at a concrete already-greeted store. -/
theorem greeting_skip_idempotent_witness :
    (initializeCharacterSession true true true false 9 fixtureGreeted
      "c2").2.2 = [] ∧
    (initializeCharacterSession true true true false 10
      (initializeCharacterSession true true true false 9 fixtureGreeted
        "c2").1 "c2").2.2 = [] :=
  ⟨(greeting_skip_idempotent true true true true 9 10 fixtureGreeted "c2" _
      rfl rfl).2.1,
   (greeting_skip_idempotent true true true true 9 10 fixtureGreeted "c2" _
      rfl rfl).2.2.2⟩

/-! ## Claim C2: group-change reset -/

/-- C2: for a present state with `identityEstablished=true`, `updateGroup`
with a different group id clears `identityEstablished`, stamps
`lastGroupChange`/`contextReset`/`lastUpdated` and arms the ephemeral
`resetRequired` flag; the next `getEnhancedSystemInstructions` build
appends the reset clause exactly once (as the final appended clause) and
clears the flag, so an immediately following second build omits it. -/
theorem group_change_reset (m : Manager) (cid g base : String)
    (st : CharacterState) (now : Nat)
    (h1 : getState m cid = some st) (_h2 : st.identityEstablished = true)
    (h3 : ¬ st.group = some g) :
    ∃ m1 st1, updateGroup now m cid (some g) = some (m1, st1) ∧
      st1.identityEstablished = false ∧
      st1.group = some g ∧
      st1.lastGroupChange = some now ∧
      st1.contextReset = some now ∧
      st1.lastUpdated = some now ∧
      st1.greetingCompleted = st.greetingCompleted ∧
      getFlag m1 cid "resetRequired" = some true ∧
      (getEnhancedSystemInstructions m1 cid base).2 =
        base ++ (if groupTruthy (some g) then groupClause g else "") ++
          (if st.greetingCompleted then "" else greetingClause) ++
          resetClause g ∧
      (getEnhancedSystemInstructions
          ((getEnhancedSystemInstructions m1 cid base).1) cid base).2 =
        base ++ (if groupTruthy (some g) then groupClause g else "") ++
          (if st.greetingCompleted then "" else greetingClause) := by
  have hic : (st.group ≠ some g : Bool) = true := by
    simp [h3]
  have hupd : updateGroup now m cid (some g) =
      some (setFlag (putState m cid
        { st with
          group := some g
          lastGroupChange := some now
          identityEstablished := false
          contextReset := some now
          lastUpdated := some now }) cid "resetRequired" true,
        { st with
          group := some g
          lastGroupChange := some now
          identityEstablished := false
          contextReset := some now
          lastUpdated := some now }) := by
    unfold updateGroup
    rw [h1]
    simp only [hic, if_true, ite_true]
  set st1 : CharacterState :=
    { st with
      group := some g
      lastGroupChange := some now
      identityEstablished := false
      contextReset := some now
      lastUpdated := some now } with hst1
  set m1 : Manager := setFlag (putState m cid st1) cid "resetRequired" true
    with hm1
  have hsm1 : getState m1 cid = some st1 := by
    rw [hm1, getState_setFlag, getState_putState, if_pos rfl]
  have hfm1 : getFlag m1 cid "resetRequired" = some true :=
    getFlag_setFlag_self _ cid "resetRequired" true
  have henh1 : getEnhancedSystemInstructions m1 cid base =
      (clearFlag m1 cid "resetRequired",
        base ++ (if groupTruthy (some g) then groupClause g else "") ++
          (if st.greetingCompleted then "" else greetingClause) ++
          resetClause g) := by
    unfold getEnhancedSystemInstructions
    rw [hsm1]
    simp only [hst1, hfm1, if_pos rfl]
    simp [showGroup]
  have hsm2 : getState (clearFlag m1 cid "resetRequired") cid = some st1 := by
    rw [getState_clearFlag]; exact hsm1
  have hfm2 : getFlag (clearFlag m1 cid "resetRequired") cid "resetRequired"
      = none := getFlag_clearFlag_self m1 cid "resetRequired"
  have henh2 : (getEnhancedSystemInstructions
      (clearFlag m1 cid "resetRequired") cid base).2 =
      base ++ (if groupTruthy (some g) then groupClause g else "") ++
        (if st.greetingCompleted then "" else greetingClause) := by
    unfold getEnhancedSystemInstructions
    rw [hsm2]
    simp only [hst1, hfm2]
    simp [showGroup]
  refine ⟨m1, st1, hupd, rfl, rfl, rfl, rfl, rfl, rfl, hfm1, ?_, ?_⟩
  · rw [henh1]
  · rw [henh1]
    exact henh2

/-- Witness for C2 at a concrete established state. -/
theorem group_change_reset_witness :
    ∃ m1 st1,
      updateGroup 60 fixtureGreeted "c2" (some "group-beta") =
        some (m1, st1) ∧
      st1.identityEstablished = false ∧
      st1.group = some "group-beta" ∧
      st1.lastGroupChange = some 60 ∧
      st1.contextReset = some 60 ∧
      st1.lastUpdated = some 60 ∧
      st1.greetingCompleted = true ∧
      getFlag m1 "c2" "resetRequired" = some true ∧
      (getEnhancedSystemInstructions m1 "c2" "BASE").2 =
        "BASE" ++ (if groupTruthy (some "group-beta") then
          groupClause "group-beta" else "") ++
          (if true then "" else greetingClause) ++
          resetClause "group-beta" ∧
      (getEnhancedSystemInstructions
          ((getEnhancedSystemInstructions m1 "c2" "BASE").1) "c2"
          "BASE").2 =
        "BASE" ++ (if groupTruthy (some "group-beta") then
          groupClause "group-beta" else "") ++
          (if true then "" else greetingClause) :=
  group_change_reset fixtureGreeted "c2" "group-beta" "BASE" _ 60 rfl rfl
    (by decide)

/-! ## Claim C1: message dedup and loop prevention -/

theorem mem_markProcessed_mono (s : OrchState) (id x : String)
    (h : x ∈ s.processedIds) : x ∈ (markProcessed s id).processedIds := by
  unfold markProcessed
  by_cases h2 : id ∈ s.processedIds <;> simp [h2, h]

theorem mem_trim_markProcessed (s : OrchState) (id : String)
    (h : id ∉ s.processedIds) :
    id ∈ (trimProcessed (markProcessed s id)).processedIds := by
  unfold markProcessed trimProcessed
  simp only [h, if_false]
  split
  case isTrue hlen =>
    have hle : (s.processedIds ++ [id]).length - 1000 ≤
        s.processedIds.length := by
      simp only [List.length_append, List.length_singleton] at hlen ⊢
      omega
    simp only [List.drop_append_of_le_length hle]
    exact List.mem_append_right _ (by simp)
  case isFalse _ =>
    exact List.mem_append_right _ (by simp)

theorem mem_processCharacterMessage (env : OrchEnv) (s : OrchState)
    (msg : Message) (uid : Option String) (chid cid x : String)
    (h : x ∈ s.processedIds) :
    x ∈ (processCharacterMessage env s msg uid chid cid).processedIds := by
  unfold processCharacterMessage sendErrorMessage sendMessageAsCharacter
  split
  · exact h
  · cases env.characterName cid with
    | none => exact mem_markProcessed_mono _ _ _ h
    | some nm =>
      cases env.respond cid msg.text with
      | none => exact mem_markProcessed_mono _ _ _ h
      | some reply =>
        simp only
        exact mem_markProcessed_mono _ _ _ h

theorem recordMapping_processed (s : OrchState) (channelId cid : String) :
    (recordMapping s channelId cid).processedIds = s.processedIds := by
  unfold recordMapping; split <;> rfl

theorem recordMapping_sent (s : OrchState) (channelId cid : String) :
    (recordMapping s channelId cid).sentMessages = s.sentMessages := by
  unfold recordMapping; split <;> rfl

theorem sent_processCharacterMessage (env : OrchEnv) (s : OrchState)
    (msg : Message) (uid : Option String) (chid cid : String)
    (hblank : isBlank msg.text = false) :
    (processCharacterMessage env s msg uid chid cid).sentMessages.length =
      s.sentMessages.length + 1 := by
  unfold processCharacterMessage sendErrorMessage sendMessageAsCharacter
  rw [hblank]
  simp only [Bool.false_eq_true, if_false]
  cases env.characterName cid with
  | none => simp [markProcessed]
  | some nm =>
    cases env.respond cid msg.text with
    | none => simp [markProcessed]
    | some reply => simp [markProcessed]

/-- C1: the orchestrator handler is idempotent on any event (a second
delivery of the same message id changes nothing, so exactly one reply is
sent in total); events whose sender is the orchestrator itself are never
processed at all; and a fresh non-orchestrator message on a character
channel (truthy, i.e. non-empty, parsed character id) with non-blank text
sends exactly one outbound message (the character reply, or the fallback
error). -/
theorem orchestrator_dedup (env : OrchEnv) (s : OrchState) (e : MsgEvent) :
    handleIncomingMessage env (handleIncomingMessage env s e) e =
      handleIncomingMessage env s e ∧
    (∀ msg, e.message = some msg → msg.senderId = env.orchestratorId →
      handleIncomingMessage env s e = s) ∧
    (∀ msg cid, e.message = some msg →
      msg.senderId ≠ env.orchestratorId →
      msg.id ∉ s.processedIds →
      (parseChannelId e.channelId).characterId = some cid →
      cid ≠ "" →
      isBlank msg.text = false →
      (handleIncomingMessage env s e).sentMessages.length =
        s.sentMessages.length + 1) := by
  refine ⟨?_, ?_, ?_⟩
  · cases he : e.message with
    | none =>
      rw [handleIncomingMessage_none env s e he,
        handleIncomingMessage_none env s e he]
    | some msg =>
      rw [handleIncomingMessage_some env s e msg he,
        handleIncomingMessage_some env _ e msg he]
      by_cases h1 : msg.id ∈ s.processedIds
      · unfold handleMessageBody
        rw [if_pos h1, if_pos h1]
      by_cases h2 : msg.senderId = env.orchestratorId
      · unfold handleMessageBody
        rw [if_neg h1, if_pos h2, if_neg h1, if_pos h2]
      · have hmem : msg.id ∈
            (handleMessageBody env s msg e.channelId).processedIds := by
          unfold handleMessageBody
          rw [if_neg h1, if_neg h2]
          have hbase := mem_trim_markProcessed s msg.id h1
          cases hc : (parseChannelId e.channelId).characterId with
          | none => simp only [hc]; exact hbase
          | some cid =>
            simp only [hc]
            split
            · exact hbase
            · apply mem_processCharacterMessage
              rw [recordMapping_processed]
              exact hbase
        set t := handleMessageBody env s msg e.channelId with ht
        unfold handleMessageBody
        rw [if_pos hmem]
  · intro msg hm hsender
    rw [handleIncomingMessage_some env s e msg hm]
    unfold handleMessageBody
    by_cases h1 : msg.id ∈ s.processedIds
    · rw [if_pos h1]
    · rw [if_neg h1, if_pos hsender]
  · intro msg cid hm hsender h1 hc hcid hblank
    rw [handleIncomingMessage_some env s e msg hm]
    unfold handleMessageBody
    rw [if_neg h1, if_neg hsender]
    simp only [hc]
    rw [if_neg hcid]
    rw [sent_processCharacterMessage env _ msg _ _ cid hblank,
      recordMapping_sent, trimProcessed_sent, markProcessed_sent]

/-- Witness for C1 at a concrete fresh event: one reply on the first
delivery, nothing on the second. -/
theorem orchestrator_dedup_witness :
    handleIncomingMessage envFixture
        (handleIncomingMessage envFixture {} eventFixture) eventFixture =
      handleIncomingMessage envFixture {} eventFixture ∧
    (handleIncomingMessage envFixture {} eventFixture).sentMessages.length =
      ({} : OrchState).sentMessages.length + 1 :=
  ⟨(orchestrator_dedup envFixture {} eventFixture).1,
   (orchestrator_dedup envFixture {} eventFixture).2.2
     { id := "m1", senderId := "u1", text := "Hello" } "c1" rfl (by decide)
     (by decide) (by rfl) (by decide) (by decide)⟩

/-! ## Claim C4: the greeting-before-identity invariant -/

theorem storeInv_states_eq {m m' : Manager} (h : m'.states = m.states)
    (hinv : storeInv m) : storeInv m' := by
  intro cid st hs hid
  apply hinv cid st _ hid
  show m.states.lookup cid = some st
  rw [← h]
  exact hs

theorem identityGuardOk_states_eq {m m' : Manager} (cid : String)
    (h : m'.states = m.states) (hg : identityGuardOk m cid) :
    identityGuardOk m' cid := by
  intro st hs
  apply hg st
  show m.states.lookup cid = some st
  rw [← h]
  exact hs

theorem storeInv_putState {m : Manager} {cid : String}
    {st' : CharacterState} (hinv : storeInv m)
    (hst : st'.identityEstablished = true → st'.greetingCompleted = true) :
    storeInv (putState m cid st') := by
  intro c s hs hid
  rw [getState_putState] at hs
  by_cases hcc : c = cid
  · rw [if_pos hcc] at hs
    cases hs
    exact hst hid
  · rw [if_neg hcc] at hs
    exact hinv c s hs hid

theorem enhance_states (m : Manager) (cid base : String) :
    ((getEnhancedSystemInstructions m cid base).1).states = m.states := by
  unfold getEnhancedSystemInstructions
  cases h : getState m cid with
  | none => simp [h]
  | some st =>
    simp only [h]
    split <;> rfl

theorem getCharacterEffect_states (cc : Bool) (m : Manager) (cid : String) :
    (getCharacterEffect cc m cid).states = m.states := by
  unfold getCharacterEffect
  split
  · rfl
  · exact enhance_states m cid ""

theorem logInteraction_fst_char (a u : Bool) (now : Nat) (m : Manager)
    (cid : String) :
    (logInteraction a u now m cid).1 = m ∨
    ∃ st, getState m cid = some st ∧
      (logInteraction a u now m cid).1 = putState m cid
        { st with
          interactionCount := st.interactionCount + 1
          lastInteraction := now
          lastUpdated := some now } := by
  unfold logInteraction
  cases h : getState m cid with
  | none => left; rfl
  | some st =>
    cases a with
    | false => left; rfl
    | true =>
      cases u with
      | false => left; rfl
      | true => right; exact ⟨st, rfl, rfl⟩

theorem storeInv_logInteraction {m : Manager} (a u : Bool) (now : Nat)
    (cid : String) (hinv : storeInv m) :
    storeInv ((logInteraction a u now m cid).1) := by
  rcases logInteraction_fst_char a u now m cid with h | ⟨st, hst, h⟩
  · rw [h]; exact hinv
  · rw [h]
    apply storeInv_putState hinv
    intro hid
    exact hinv cid st hst hid

theorem identityGuardOk_logInteraction {m : Manager} (a u : Bool) (now : Nat)
    (cid : String) (hg : identityGuardOk m cid) :
    identityGuardOk ((logInteraction a u now m cid).1) cid := by
  rcases logInteraction_fst_char a u now m cid with h | ⟨st, hst, h⟩
  · rw [h]; exact hg
  · rw [h]
    intro st2 hs2
    rw [getState_putState, if_pos rfl] at hs2
    cases hs2
    exact hg st hst

theorem storeInv_markGreeting {m : Manager} (now : Nat) (cid : String)
    (hinv : storeInv m) :
    storeInv (match markGreetingCompleted now m cid with
      | some (m', _) => m'
      | none => m) := by
  cases hmg : markGreetingCompleted now m cid with
  | none => exact hinv
  | some p =>
    obtain ⟨m', st'⟩ := p
    simp only
    unfold markGreetingCompleted at hmg
    cases hst : getState m cid with
    | none => rw [hst] at hmg; exact absurd hmg (by simp)
    | some st =>
      rw [hst] at hmg
      simp only [Option.some.injEq, Prod.mk.injEq] at hmg
      obtain ⟨hm', _⟩ := hmg
      subst hm'
      apply storeInv_putState hinv
      intro _
      rfl

/-- Invariant preservation for one guarded operation. -/
theorem applyOp_preserves (m : Manager) (op : Op) (hinv : storeInv m)
    (hg : opGuard m op) : storeInv (applyOp m op) := by
  cases op with
  | init cid now =>
    simp only [applyOp, initializeCharacter]
    cases h : getState m cid with
    | some st => simp only [h]; exact hinv
    | none =>
      simp only [h]
      apply storeInv_putState hinv
      intro hid
      simp [overrideState, defaultState] at hid
  | setGroup cid gid now =>
    simp only [applyOp]
    cases hug : updateGroup now m cid gid with
    | none => exact hinv
    | some p =>
      obtain ⟨m', st'⟩ := p
      simp only
      unfold updateGroup at hug
      cases hst : getState m cid with
      | none => rw [hst] at hug; exact absurd hug (by simp)
      | some st =>
        rw [hst] at hug
        simp only [Option.some.injEq, Prod.mk.injEq] at hug
        obtain ⟨hm', hst'⟩ := hug
        subst hm'
        by_cases hch : (st.group ≠ gid : Bool) = true
        · rw [if_pos hch]
          refine storeInv_states_eq rfl ?_
          apply storeInv_putState hinv
          intro hid
          simp [hch] at hid
        · rw [if_neg hch]
          apply storeInv_putState hinv
          intro hid
          rw [Bool.not_eq_true] at hch
          simp only [hch, Bool.false_eq_true, if_false] at hid
          exact hinv cid st hst hid
  | markGreeting cid now =>
    simp only [applyOp]
    exact storeInv_markGreeting now cid hinv
  | markIdentity cid now =>
    simp only [applyOp]
    cases hmi : markIdentityEstablished now m cid with
    | none => exact hinv
    | some p =>
      obtain ⟨m', st'⟩ := p
      simp only
      unfold markIdentityEstablished at hmi
      cases hst : getState m cid with
      | none => rw [hst] at hmi; exact absurd hmi (by simp)
      | some st =>
        rw [hst] at hmi
        simp only [Option.some.injEq, Prod.mk.injEq] at hmi
        obtain ⟨hm', _⟩ := hmi
        subst hm'
        apply storeInv_putState hinv
        intro _
        exact hg st hst
  | logI cid a u now =>
    simp only [applyOp]
    exact storeInv_logInteraction a u now cid hinv
  | msgTurn cid cc a u now =>
    simp only [applyOp, sendMessageTurn]
    have hinv1 : storeInv (getCharacterEffect cc m cid) :=
      storeInv_states_eq (getCharacterEffect_states cc m cid) hinv
    have hg1 : identityGuardOk (getCharacterEffect cc m cid) cid :=
      identityGuardOk_states_eq cid (getCharacterEffect_states cc m cid) hg
    have hinv2 : storeInv
        ((logInteraction a u now (getCharacterEffect cc m cid) cid).1) :=
      storeInv_logInteraction a u now cid hinv1
    have hg2 : identityGuardOk
        ((logInteraction a u now (getCharacterEffect cc m cid) cid).1) cid :=
      identityGuardOk_logInteraction a u now cid hg1
    cases hst2 : getState
        ((logInteraction a u now (getCharacterEffect cc m cid) cid).1) cid with
    | none => simp only [hst2]; exact hinv2
    | some st2 =>
      simp only [hst2]
      split
      · cases hmi : markIdentityEstablished now
            ((logInteraction a u now (getCharacterEffect cc m cid) cid).1)
            cid with
        | none => simp only [hmi]; exact hinv2
        | some p =>
          obtain ⟨m3, st3⟩ := p
          simp only [hmi]
          unfold markIdentityEstablished at hmi
          rw [hst2] at hmi
          simp only [Option.some.injEq, Prod.mk.injEq] at hmi
          obtain ⟨hm3, _⟩ := hmi
          subst hm3
          apply storeInv_putState hinv2
          intro _
          exact hg2 st2 hst2
      · exact hinv2
  | greetSession cid ce cc comp force now =>
    simp only [applyOp, initializeCharacterSession]
    have hinv1 : storeInv (getCharacterEffect cc m cid) :=
      storeInv_states_eq (getCharacterEffect_states cc m cid) hinv
    split
    · exact hinv
    · split
      · exact hinv1
      · split
        · exact storeInv_markGreeting now cid hinv1
        · exact hinv1
  | enhance cid base =>
    simp only [applyOp]
    exact storeInv_states_eq (enhance_states m cid base) hinv

/-- C4 counterexample: the claimed invariant fails on a reachable state —
one message turn on a freshly initialized (never greeted) character
already marks identity established while `greetingCompleted` is still
false. -/
theorem store_identity_invariant_counterexample :
    ((getState (runOps [Op.init "c1" 0, Op.msgTurn "c1" true true true 1])
        "c1").map
      fun st => (st.identityEstablished, st.greetingCompleted)) =
      some (true, false) := by
  decide

/-- C4 amended: the greeting-before-identity invariant holds for every
store reachable from the empty store when identity-marking steps (direct
`markIdentityEstablished` and message-turn completions) run only for
characters whose greeting is already completed on record; the unguarded
operation set violates it. -/
theorem store_identity_invariant_guarded (m : Manager) (h : ReachG m) :
    storeInv m := by
  induction h with
  | nil =>
    intro cid st hs
    simp [getState, List.lookup] at hs
  | step op hr hg ih => exact applyOp_preserves _ op ih hg

/-- Witness for C4 amended at a one-step guarded run. -/
theorem store_identity_invariant_guarded_witness :
    storeInv (applyOp {} (Op.init "c1" 0)) :=
  store_identity_invariant_guarded _
    (ReachG.step (Op.init "c1" 0) ReachG.nil trivial)

end Chatterbots
